import Mathlib

/-!
Verification development for the Bluebird_User_Backend notification and
inactivity-scheduler subsystem.  The definitions below are a shallow
embedding of the JavaScript source:

* `src/scheduler.js` — the daily inactivity scan (`startScheduler`);
* `src/controllers/notificationController.js` — `subscribe`,
  `sendNotificationToUser`, `broadcastNotification`;
* the employee controller (`updateEmployee`) and auth controller
  (`loginUser`).

Timestamps are modelled as `Int` milliseconds since the Unix epoch; an
ISO-8601 string with a `Z` suffix, as produced by `Date.toISOString` and
re-parsed by `new Date(...)`, denotes exactly that instant, so string
serialisation round-trips are elided.  Asynchronous I/O steps that can
throw are modelled with `Except`; a JS `try/catch` or promise `.catch`
handler appears as an explicit match on the `Except` value.
-/

/-- A web-push subscription record.  Only `endpoint` is inspected by the
code (de-duplication in `subscribe`); the key material is opaque. -/
structure Subscription where
  endpoint : String
  keys : String
deriving DecidableEq

/-- The shape of the stored `push_subscriptions` column value as the JS
code discriminates it: absent/null (falsy), a JSONB array, a string that
`JSON.parse`s to an array, a string that parses to a non-array value, a
string on which `JSON.parse` throws, or some other truthy non-string
non-array value (e.g. a JSONB object). -/
inductive Stored where
  | missing
  | arr (subs : List Subscription)
  | strOfArr (subs : List Subscription)
  | strOfNonArr
  | strBad
  | objVal
deriving DecidableEq

/-- An employee row, restricted to the fields this subsystem reads:
`empid`, `role_type`, the two activity timestamps (nullable, in ms), and
the stored `push_subscriptions` value. -/
structure Emp where
  empid : String
  role_type : String
  last_login : Option Int
  updated_at : Option Int
  stored : Stored
deriving DecidableEq

/-! ## Inactivity scheduler (src/scheduler.js, startScheduler) -/

/-- `emp.last_login ? new Date(emp.last_login) : new Date(0)`
(scheduler.js line 34): a missing login timestamp is the epoch-zero
instant. -/
def lastLoginMs (e : Emp) : Int :=
  e.last_login.getD 0

/-- `emp.updated_at ? new Date(emp.updated_at) : new Date(0)`
(scheduler.js line 35). -/
def lastUpdateMs (e : Emp) : Int :=
  e.updated_at.getD 0

/-- The inactivity predicate of scheduler.js line 43:
`lastLogin < cutoffDate && lastUpdate < cutoffDate`, strict `<` on
instants. -/
def inactivityQualifies (cutoff : Int) (e : Emp) : Bool :=
  decide (lastLoginMs e < cutoff) && decide (lastUpdateMs e < cutoff)

/-- The employee fetch of scheduler.js lines 25-28:
`.from('employees').select(...).neq('role_type', 'Manager')` — every row
whose `role_type` differs from `"Manager"`. -/
def scanFetch (pop : List Emp) : List Emp :=
  pop.filter (fun e => e.role_type != "Manager")

/-- Outcome of one scheduler run: either the run aborted inside the
`catch` block (scheduler.js lines 57-59), or it completed having sent a
reminder to `notified` and logged `count`. -/
inductive ScanResult where
  | aborted
  | completed (notified : List Emp) (count : Nat)
deriving DecidableEq

/-- One firing of the cron callback (scheduler.js lines 9-60), with the
employee fetch outcome passed in: `if (error) throw error` jumps to the
catch block, which logs and returns normally — no retry, nothing
propagates out of the callback; otherwise each fetched employee is
tested with `inactivityQualifies` and the qualifying ones are sent the
reminder and counted. -/
def schedulerRun (fetch : Except Unit (List Emp)) (cutoff : Int) : ScanResult :=
  match fetch with
  | .error _ => .aborted
  | .ok emps =>
    let q := emps.filter (inactivityQualifies cutoff)
    .completed q q.length

/-- The employees a run sent a reminder to (empty when the run
aborted). -/
def scanSent : ScanResult → List Emp
  | .aborted => []
  | .completed l _ => l

/-- The count the run logged (`Sent ${count} notifications`); zero when
the run aborted. -/
def scanCount : ScanResult → Nat
  | .aborted => 0
  | .completed _ n => n

/-- A full non-failing run over population `pop`: the fetch succeeds and
returns exactly the non-Manager rows. -/
def inactivityCheck (pop : List Emp) (cutoff : Int) : ScanResult :=
  schedulerRun (.ok (scanFetch pop)) cutoff

/-! ## Claim C1 -/

/-- **C1.** For every employee fetched by the inactivity scan, with
`lastLogin`/`lastUpdate` defaulting to epoch zero when null and `cutoff
= now - window`: the employee is sent a reminder in that run iff
`lastLogin < cutoff` and `lastUpdate < cutoff`, with strict less-than
(a timestamp exactly at the cutoff does not qualify), and an employee
with both timestamps null qualifies for any positive window (any run
whose clock exceeds the window, as every real run after the epoch
does). -/
theorem c1_inactivity_scan_iff :
    (∀ (pop : List Emp) (cutoff : Int) (e : Emp), e ∈ scanFetch pop →
        (e ∈ scanSent (inactivityCheck pop cutoff) ↔
          lastLoginMs e < cutoff ∧ lastUpdateMs e < cutoff)) ∧
    (∀ (pop : List Emp) (cutoff : Int) (e : Emp), e ∈ scanFetch pop →
        e.last_login = some cutoff →
        e ∉ scanSent (inactivityCheck pop cutoff)) ∧
    (∀ (pop : List Emp) (t window : Int) (e : Emp), e ∈ scanFetch pop →
        e.last_login = none → e.updated_at = none →
        0 < window → window < t →
        e ∈ scanSent (inactivityCheck pop (t - window))) := by
  refine ⟨?_, ?_, ?_⟩
  · intro pop cutoff e he
    simp only [inactivityCheck, schedulerRun, scanSent, List.mem_filter,
      inactivityQualifies, Bool.and_eq_true, decide_eq_true_eq]
    tauto
  · intro pop cutoff e he hlog
    simp only [inactivityCheck, schedulerRun, scanSent, List.mem_filter,
      inactivityQualifies, Bool.and_eq_true, decide_eq_true_eq,
      lastLoginMs, hlog, Option.getD_some]
    intro h
    exact absurd h.2.1 (lt_irrefl cutoff)
  · intro pop t window e he hlog hupd hw hwt
    simp only [inactivityCheck, schedulerRun, scanSent, List.mem_filter,
      inactivityQualifies, Bool.and_eq_true, decide_eq_true_eq,
      lastLoginMs, lastUpdateMs, hlog, hupd, Option.getD_none]
    exact ⟨he, by omega, by omega⟩

/-- Witness for C1 at a concrete population: an employee with both
timestamps null, fetched by the scan, is notified for window 15 (cutoff
`100 - 15`), and one with `last_login` exactly at the cutoff is not. -/
theorem c1_witness :
    ({ empid := "E1", role_type := "IC", last_login := none,
       updated_at := none, stored := .missing } : Emp) ∈
      scanSent (inactivityCheck
        [{ empid := "E1", role_type := "IC", last_login := none,
           updated_at := none, stored := .missing }] (100 - 15)) :=
  c1_inactivity_scan_iff.2.2
    [{ empid := "E1", role_type := "IC", last_login := none,
       updated_at := none, stored := .missing }]
    100 15 _ (by decide) rfl rfl (by decide) (by decide)

/-! ## Claim C8 -/

/-- **C8.** A scheduler run whose employee fetch fails aborts entirely:
zero notifications sent, zero counted, the failure is absorbed by the
catch block (the run function returns the `aborted` outcome normally
instead of propagating), and the fetch is not retried within the run
(the run's result is fully determined by the single fetch outcome). -/
theorem c8_fetch_failure_aborts_run :
    ∀ (cutoff : Int),
      schedulerRun (.error ()) cutoff = .aborted ∧
      scanSent (schedulerRun (.error ()) cutoff) = [] ∧
      scanCount (schedulerRun (.error ()) cutoff) = 0 := by
  intro cutoff
  exact ⟨rfl, rfl, rfl⟩

/-! ## Subscription registry (notificationController.js, subscribe) -/

/-- The list the `subscribe` handler works on after its shape-sniffing of
the stored value (notificationController.js lines 43-55), `none` marking
the one shape on which the handler subsequently throws: a falsy stored
value leaves the initial `[]`; a string is `JSON.parse`d, a parse
exception yielding `[]`; a non-string array is taken as-is; any other
truthy non-string value leaves `[]`.  A string that parses to a
non-array is carried forward as that non-array value, and the
`subscriptions.some(...)` call on line 58 then throws a TypeError
(surfacing as the handler's catch-all 500), which `none` records. -/
def subscribeParsed : Stored → Option (List Subscription)
  | .missing => some []
  | .arr l => some l
  | .strOfArr l => some l
  | .strOfNonArr => none
  | .strBad => some []
  | .objVal => some []

/-- Outcome of the employee-row fetch by `empid`. `.single()` reports an
error when no row matches, so a missing employee surfaces as a fetch
error in `subscribe`. -/
inductive Lookup where
  | lkError
  | notFound
  | found (st : Stored)
deriving DecidableEq

/-- Result of the `subscribe` handler: 201 with the (possibly unchanged)
stored value and whether a DB write was performed, or the catch-all
500. -/
inductive SubscribeResult where
  | created (newStored : Stored) (wrote : Bool)
  | serverError
deriving DecidableEq

/-- The `subscribe` handler (notificationController.js lines 26-77):
fetch the row (errors → 500), normalize the stored list, check
`subscriptions.some(s => s.endpoint === subscription.endpoint)`; if the
endpoint exists respond 201 without writing, otherwise append and
persist the updated list (stored back as a JSONB array). -/
def subscribe (lk : Lookup) (sub : Subscription) : SubscribeResult :=
  match lk with
  | .lkError => .serverError
  | .notFound => .serverError
  | .found st =>
    match subscribeParsed st with
    | none => .serverError
    | some subs =>
      if subs.any (fun s => s.endpoint == sub.endpoint) then
        .created st false
      else
        .created (.arr (subs ++ [sub])) true

/-- A sequence of `subscribe` calls against one employee's stored value;
a call that ends in the 500 path performs no write, so the stored value
is unchanged for the next call. -/
def registerMany : Stored → List Subscription → Stored
  | st, [] => st
  | st, sub :: rest =>
    match subscribe (.found st) sub with
    | .created st1 _ => registerMany st1 rest
    | .serverError => registerMany st rest

/-- The de-duplication invariant: no two subscriptions in the list share
an endpoint. -/
def endpointsNodup (l : List Subscription) : Prop :=
  (l.map Subscription.endpoint).Nodup

/-- A stored value whose parsed subscription list (when the `subscribe`
handler can obtain one) has pairwise-distinct endpoints. -/
def storedNodup (st : Stored) : Prop :=
  match subscribeParsed st with
  | none => True
  | some l => endpointsNodup l

theorem subscribe_twice_noop (st st1 : Stored) (sub : Subscription) (w : Bool)
    (h : subscribe (.found st) sub = .created st1 w) :
    subscribe (.found st1) sub = .created st1 false := by
  cases hp : subscribeParsed st with
  | none => simp [subscribe, hp] at h
  | some subs =>
    by_cases hex : subs.any (fun s => s.endpoint == sub.endpoint) = true
    · simp [subscribe, hp, hex] at h
      obtain ⟨h1, _⟩ := h
      subst h1
      simp [subscribe, hp, hex]
    · simp [subscribe, hp, hex] at h
      obtain ⟨h1, _⟩ := h
      subst h1
      simp [subscribe, subscribeParsed]

theorem subscribe_step_nodup (st st1 : Stored) (sub : Subscription) (w : Bool)
    (hn : storedNodup st) (h : subscribe (.found st) sub = .created st1 w) :
    storedNodup st1 := by
  cases hp : subscribeParsed st with
  | none => simp [subscribe, hp] at h
  | some subs =>
    have hns : endpointsNodup subs := by
      unfold storedNodup at hn
      rw [hp] at hn
      exact hn
    by_cases hex : subs.any (fun s => s.endpoint == sub.endpoint) = true
    · simp [subscribe, hp, hex] at h
      obtain ⟨h1, _⟩ := h
      subst h1
      exact hn
    · simp [subscribe, hp, hex] at h
      obtain ⟨h1, _⟩ := h
      subst h1
      have hmem : sub.endpoint ∉ subs.map Subscription.endpoint := by
        intro hm
        obtain ⟨s, hs, he⟩ := List.mem_map.mp hm
        exact hex (List.any_eq_true.mpr ⟨s, hs, by simp [he]⟩)
      have hcons : (sub.endpoint :: subs.map Subscription.endpoint).Nodup :=
        List.nodup_cons.mpr ⟨hmem, hns⟩
      simp only [storedNodup, subscribeParsed, endpointsNodup, List.map_append,
        List.map_cons, List.map_nil]
      exact (List.perm_append_singleton _ _).symm.nodup hcons

theorem registerMany_nodup (l : List Subscription) :
    ∀ st : Stored, storedNodup st → storedNodup (registerMany st l) := by
  induction l with
  | nil => intro st h; exact h
  | cons sub rest ih =>
    intro st h
    simp only [registerMany]
    cases hs : subscribe (.found st) sub with
    | created st1 w => exact ih st1 (subscribe_step_nodup st st1 sub w h hs)
    | serverError => exact ih st h

theorem register_twice_one_copy (st : Stored) (sub : Subscription)
    (l : List Subscription) (hn : storedNodup st)
    (hp : subscribeParsed (registerMany st [sub, sub]) = some l) :
    (l.map Subscription.endpoint).count sub.endpoint = 1 := by
  cases hp0 : subscribeParsed st with
  | none =>
    have h1 : subscribe (.found st) sub = .serverError := by
      simp only [subscribe, hp0]
    have hst : registerMany st [sub, sub] = st := by
      simp only [registerMany, h1]
    rw [hst, hp0] at hp
    exact absurd hp (by simp)
  | some subs =>
    by_cases hex : subs.any (fun s => s.endpoint == sub.endpoint) = true
    · have h1 : subscribe (.found st) sub = .created st false := by
        simp only [subscribe, hp0]
        rw [if_pos hex]
      have hst : registerMany st [sub, sub] = st := by
        simp only [registerMany, h1]
      rw [hst, hp0] at hp
      obtain rfl : subs = l := by injection hp
      have hns : endpointsNodup subs := by
        unfold storedNodup at hn; rw [hp0] at hn; exact hn
      obtain ⟨s, hs, he⟩ := List.any_eq_true.mp hex
      have hmem : sub.endpoint ∈ subs.map Subscription.endpoint :=
        List.mem_map.mpr ⟨s, hs, by simpa using he⟩
      exact List.count_eq_one_of_mem hns hmem
    · have h1 : subscribe (.found st) sub = .created (.arr (subs ++ [sub])) true := by
        simp only [subscribe, hp0]
        rw [if_neg hex]
      have h2 : subscribe (.found (.arr (subs ++ [sub]))) sub =
          .created (.arr (subs ++ [sub])) false :=
        subscribe_twice_noop st _ sub true h1
      have hst : registerMany st [sub, sub] = .arr (subs ++ [sub]) := by
        simp only [registerMany, h1, h2]
      rw [hst] at hp
      obtain rfl : subs ++ [sub] = l := by
        simpa [subscribeParsed] using hp
      have hn1 : storedNodup (.arr (subs ++ [sub])) :=
        subscribe_step_nodup st _ sub true hn h1
      have hns : endpointsNodup (subs ++ [sub]) := by
        unfold storedNodup subscribeParsed at hn1
        exact hn1
      have hmem : sub.endpoint ∈ (subs ++ [sub]).map Subscription.endpoint := by
        simp
      exact List.count_eq_one_of_mem hns hmem

/-! ## Push transport and dispatcher (notificationController.js) -/

/-- Classified failure of one `webpush.sendNotification` call: the
provider reports the endpoint gone (`statusCode` 410 or 404), or any
other failure. -/
inductive SendFailure where
  | expired
  | transient
deriving DecidableEq

/-- One raw transport send: resolves on success, rejects with the
classified failure otherwise.  `send` assigns each subscription its
transport outcome (`none` = success). -/
def pushSend (send : Subscription → Option SendFailure) (s : Subscription) :
    Except SendFailure Unit :=
  match send s with
  | none => .ok ()
  | some f => .error f

/-- What one per-subscription promise settles to after the handler
attached to it. -/
inductive SendOutcome where
  | delivered
  | loggedExpired
  | loggedError
deriving DecidableEq

/-- The `.catch` attached to every send in `sendNotificationToUser`
(lines 108-116): a 410/404 rejection is logged as an expired
subscription, any other rejection as a push error; either way the
promise resolves. -/
def catchSend (send : Subscription → Option SendFailure) (s : Subscription) :
    SendOutcome :=
  match pushSend send s with
  | .ok () => .delivered
  | .error .expired => .loggedExpired
  | .error .transient => .loggedError

/-- `Promise.all`: resolves with all values when every promise resolves,
rejects as soon as any promise rejects. -/
def promiseAll {α : Type} : List (Except Unit α) → Except Unit (List α)
  | [] => .ok []
  | p :: ps =>
    match p with
    | .error e => .error e
    | .ok a =>
      match promiseAll ps with
      | .error e => .error e
      | .ok rest => .ok (a :: rest)

/-- The subscription list `sendNotificationToUser` fans out to
(lines 95-104): a falsy stored value returns early; a string is parsed
with failures swallowed; anything that is not a non-empty array at that
point also returns early.  Every malformed shape therefore yields `[]`. -/
def dispatchParse : Stored → List Subscription
  | .missing => []
  | .arr l => l
  | .strOfArr l => l
  | .strOfNonArr => []
  | .strBad => []
  | .objVal => []

/-- The body of `sendNotificationToUser` (lines 82-120): resolve the
subscription list (lookup error, missing row, or falsy/malformed stored
value → return with no sends), map every subscription to a caught send,
and `Promise.all` the settled outcomes. -/
def sendNotificationToUserBody (lk : Lookup)
    (send : Subscription → Option SendFailure) :
    Except Unit (List (Subscription × SendOutcome)) :=
  match lk with
  | .lkError => .ok []
  | .notFound => .ok []
  | .found st =>
    promiseAll ((dispatchParse st).map
      (fun s => Except.ok (s, catchSend send s)))

/-- `sendNotificationToUser` with its enclosing `try/catch`
(lines 83-124): a rejection of the body is caught and logged, so the
call always completes normally; the value is the list of settled
per-subscription sends. -/
def sendNotificationToUser (lk : Lookup)
    (send : Subscription → Option SendFailure) :
    List (Subscription × SendOutcome) :=
  match sendNotificationToUserBody lk send with
  | .ok l => l
  | .error _ => []

/-! ## Broadcast (notificationController.js, broadcastNotification) -/

/-- The employee fetch of `broadcastNotification` (lines 145-152):
`.neq('role_type', 'Manager')` is applied when `roleType` is truthy —
regardless of which role string was passed; a falsy `roleType` leaves
the query unfiltered. -/
def broadcastRecipients (roleType : String) (pop : List Emp) : List Emp :=
  if roleType != "" then pop.filter (fun e => e.role_type != "Manager")
  else pop

/-- Per-subscription parse inside the broadcast fan-out (lines 158-164):
falsy stored value, unparsable string, or non-array all resolve with no
sends for that employee. -/
def broadcastParse : Stored → List Subscription
  | .missing => []
  | .arr l => l
  | .strOfArr l => l
  | .strOfNonArr => []
  | .strBad => []
  | .objVal => []

/-- The `.catch(e => console.error(e.message))` on each broadcast send
(line 167): every rejection is logged, the promise resolves. -/
def broadcastCatch (send : Emp → Subscription → Option SendFailure)
    (e : Emp) (s : Subscription) : SendOutcome :=
  match pushSend (send e) s with
  | .ok () => .delivered
  | .error _ => .loggedError

/-- The body of `broadcastNotification` (lines 145-171): fetch (an error
throws to the outer catch), then two nested `Promise.all` levels — one
per employee over one per subscription, each send individually
caught. -/
def broadcastBody (roleType : String) (fetch : Except Unit (List Emp))
    (send : Emp → Subscription → Option SendFailure) :
    Except Unit (List (List (Emp × Subscription × SendOutcome))) :=
  match fetch with
  | .error e => .error e
  | .ok pop =>
    promiseAll ((broadcastRecipients roleType pop).map
      (fun e => promiseAll ((broadcastParse e.stored).map
        (fun s => Except.ok (e, s, broadcastCatch send e s)))))

/-- `broadcastNotification` with its enclosing `try/catch`
(lines 130-176): any rejection is caught and logged, the call completes
normally; the value is the flattened list of settled sends. -/
def broadcastNotification (roleType : String) (fetch : Except Unit (List Emp))
    (send : Emp → Subscription → Option SendFailure) :
    List (Emp × Subscription × SendOutcome) :=
  match broadcastBody roleType fetch send with
  | .ok groups => groups.flatten
  | .error _ => []

theorem promiseAll_map_ok {α β : Type} (f : α → β) (l : List α) :
    promiseAll (l.map (fun a => Except.ok (f a))) = .ok (l.map f) := by
  induction l with
  | nil => rfl
  | cons a rest ih => simp [promiseAll, ih]

theorem sendBody_found (st : Stored) (send : Subscription → Option SendFailure) :
    sendNotificationToUserBody (.found st) send =
      .ok ((dispatchParse st).map (fun s => (s, catchSend send s))) := by
  simp only [sendNotificationToUserBody]
  exact promiseAll_map_ok _ _

theorem broadcastBody_ok (roleType : String) (pop : List Emp)
    (send : Emp → Subscription → Option SendFailure) :
    broadcastBody roleType (.ok pop) send =
      .ok ((broadcastRecipients roleType pop).map
        (fun e => (broadcastParse e.stored).map
          (fun s => (e, s, broadcastCatch send e s)))) := by
  simp only [broadcastBody, promiseAll_map_ok]

theorem broadcastNotification_ok (roleType : String) (pop : List Emp)
    (send : Emp → Subscription → Option SendFailure) :
    broadcastNotification roleType (.ok pop) send =
      ((broadcastRecipients roleType pop).map
        (fun e => (broadcastParse e.stored).map
          (fun s => (e, s, broadcastCatch send e s)))).flatten := by
  simp only [broadcastNotification, broadcastBody_ok]

/-! ## Concrete values used by witnesses and counterexamples -/

def subA : Subscription := { endpoint := "https://push.example/a", keys := "ka" }

def subB : Subscription := { endpoint := "https://push.example/b", keys := "kb" }

def subC : Subscription := { endpoint := "https://push.example/c", keys := "kc" }

def mgrRow : Emp :=
  { empid := "M1", role_type := "Manager", last_login := none,
    updated_at := none, stored := .arr [subA] }

def icRow : Emp :=
  { empid := "E9", role_type := "IC", last_login := none,
    updated_at := none, stored := .arr [subA] }

/-! ## Claim C2 -/

/-- **C2.** Registering the same subscription twice leaves exactly one
stored copy of its endpoint: whenever a register call succeeds, an
immediately repeated call with the same subscription succeeds with
`wrote = false` (a no-op performing no DB write); the endpoint
de-duplication invariant is preserved by any sequence of register calls;
and after registering a subscription twice into a de-duplicated store,
its endpoint occurs exactly once in the stored list. -/
theorem c2_register_idempotent :
    (∀ (st st1 : Stored) (sub : Subscription) (w : Bool),
        subscribe (.found st) sub = .created st1 w →
        subscribe (.found st1) sub = .created st1 false) ∧
    (∀ (st : Stored) (l : List Subscription),
        storedNodup st → storedNodup (registerMany st l)) ∧
    (∀ (st : Stored) (sub : Subscription) (l : List Subscription),
        storedNodup st →
        subscribeParsed (registerMany st [sub, sub]) = some l →
        (l.map Subscription.endpoint).count sub.endpoint = 1) :=
  ⟨subscribe_twice_noop,
   fun st l h => registerMany_nodup l st h,
   register_twice_one_copy⟩

/-- Witness for C2: registering `subA` into an empty store and then
again is a no-op second time; the de-dup invariant holds after a
concrete sequence; and `subA`'s endpoint is stored exactly once after a
double registration. -/
theorem c2_witness :
    subscribe (.found (.arr [subA])) subA = .created (.arr [subA]) false ∧
    storedNodup (registerMany .missing [subA, subB]) ∧
    ([subA].map Subscription.endpoint).count subA.endpoint = 1 := by
  refine ⟨?_, ?_, ?_⟩
  · exact c2_register_idempotent.1 .missing (.arr [subA]) subA true (by decide)
  · exact c2_register_idempotent.2.1 .missing [subA, subB]
      (by simp [storedNodup, subscribeParsed, endpointsNodup])
  · exact c2_register_idempotent.2.2 .missing subA [subA]
      (by simp [storedNodup, subscribeParsed, endpointsNodup]) (by decide)

/-! ## Claim C7 -/

/-- Whether the `subscribe` handler reached its success response. -/
def registerSucceeded : SubscribeResult → Bool
  | .created _ _ => true
  | .serverError => false

/-- **C7 counterexample.** A stored `push_subscriptions` value that is a
string JSON-parsing to a non-array (e.g. the string `"5"`) is not a
valid subscription list, yet the register path does not treat it as an
empty list: `JSON.parse` succeeds with a non-array, the subsequent
`subscriptions.some(...)` call throws a TypeError, and the handler
responds 500 without storing the new subscription — contradicting the
claim that register proceeds to store successfully on every malformed
stored value. -/
theorem c7_counterexample :
    subscribe (.found .strOfNonArr) subA = .serverError ∧
    registerSucceeded (subscribe (.found .strOfNonArr) subA) = false := by
  decide

/-- **C7 (amended).** A stored value that is missing, an empty list, an
unparsable string, or a truthy non-string non-array shape is treated as
an empty list by the register path, which then stores the new
subscription successfully; the dispatch path treats every shape that
does not normalize to a subscription array (including a string parsing
to a non-array) as empty, issuing zero sends without error; but the
register path fails with a server error, storing nothing, when the
stored value is a string that JSON-parses to a non-array. -/
theorem c7_malformed_handling :
    (∀ sub : Subscription,
        subscribe (.found .missing) sub = .created (.arr [sub]) true ∧
        subscribe (.found (.arr [])) sub = .created (.arr [sub]) true ∧
        subscribe (.found .strBad) sub = .created (.arr [sub]) true ∧
        subscribe (.found .objVal) sub = .created (.arr [sub]) true ∧
        subscribe (.found .strOfNonArr) sub = .serverError) ∧
    (∀ (st : Stored) (send : Subscription → Option SendFailure),
        dispatchParse st = [] →
        sendNotificationToUserBody (.found st) send = .ok []) := by
  constructor
  · intro sub
    refine ⟨?_, ?_, ?_, ?_, rfl⟩ <;> simp [subscribe, subscribeParsed]
  · intro st send h
    rw [sendBody_found, h]
    rfl

/-- Witness for C7 (amended): a concrete unparsable-string store accepts
a registration, and dispatch on a string-parsing-to-non-array store
returns ok with zero sends. -/
theorem c7_witness :
    subscribe (.found .strBad) subA = .created (.arr [subA]) true ∧
    sendNotificationToUserBody (.found .strOfNonArr) (fun _ => none) = .ok [] :=
  ⟨(c7_malformed_handling.1 subA).2.2.1,
   c7_malformed_handling.2 .strOfNonArr (fun _ => none) rfl⟩

/-! ## Claim C6 -/

/-- **C6.** When the employee lookup errors, finds no row, or finds a
row with no usable subscriptions, `sendNotificationToUser` returns
without error (the body resolves, nothing reaches the catch) and issues
zero transport sends. -/
theorem c6_no_subscriptions_silent :
    (∀ send : Subscription → Option SendFailure,
        sendNotificationToUserBody .lkError send = .ok [] ∧
        sendNotificationToUser .lkError send = []) ∧
    (∀ send : Subscription → Option SendFailure,
        sendNotificationToUserBody .notFound send = .ok [] ∧
        sendNotificationToUser .notFound send = []) ∧
    (∀ (st : Stored) (send : Subscription → Option SendFailure),
        dispatchParse st = [] →
        sendNotificationToUserBody (.found st) send = .ok [] ∧
        sendNotificationToUser (.found st) send = []) := by
  refine ⟨fun send => ⟨rfl, rfl⟩, fun send => ⟨rfl, rfl⟩, ?_⟩
  intro st send h
  have hb : sendNotificationToUserBody (.found st) send = .ok [] := by
    rw [sendBody_found, h]
    rfl
  exact ⟨hb, by simp [sendNotificationToUser, hb]⟩

/-- Witness for C6: dispatch to an employee row with no stored
subscriptions returns ok and issues zero sends. -/
theorem c6_witness :
    sendNotificationToUserBody (.found .missing) (fun _ => none) = .ok [] ∧
    sendNotificationToUser (.found .missing) (fun _ => none) = [] :=
  c6_no_subscriptions_silent.2.2 .missing (fun _ => none) rfl

/-! ## Claim C5 -/

/-- **C5.** Transport failures are isolated per subscription: the
fan-out body of `sendNotificationToUser` always resolves (never rejects
into the caller), every subscription in the resolved list is issued its
own send whose settled outcome depends only on that subscription's
transport result, and the same holds for the doubly-nested broadcast
fan-out — so one failing subscription never suppresses the sends to the
others, and neither call raises to its caller. -/
theorem c5_failure_isolation :
    (∀ (lk : Lookup) (send : Subscription → Option SendFailure),
        ∃ l, sendNotificationToUserBody lk send = .ok l) ∧
    (∀ (st : Stored) (send : Subscription → Option SendFailure)
        (s : Subscription), s ∈ dispatchParse st →
        (s, catchSend send s) ∈ sendNotificationToUser (.found st) send) ∧
    (∀ (roleType : String) (pop : List Emp)
        (send : Emp → Subscription → Option SendFailure),
        ∃ gs, broadcastBody roleType (.ok pop) send = .ok gs) ∧
    (∀ (roleType : String) (pop : List Emp)
        (send : Emp → Subscription → Option SendFailure) (e : Emp)
        (s : Subscription), e ∈ broadcastRecipients roleType pop →
        s ∈ broadcastParse e.stored →
        (e, s, broadcastCatch send e s) ∈
          broadcastNotification roleType (.ok pop) send) := by
  refine ⟨?_, ?_, ?_, ?_⟩
  · intro lk send
    cases lk with
    | lkError => exact ⟨[], rfl⟩
    | notFound => exact ⟨[], rfl⟩
    | found st => exact ⟨_, sendBody_found st send⟩
  · intro st send s hs
    simp only [sendNotificationToUser, sendBody_found]
    exact List.mem_map.mpr ⟨s, hs, rfl⟩
  · intro roleType pop send
    exact ⟨_, broadcastBody_ok roleType pop send⟩
  · intro roleType pop send e s he hs
    rw [broadcastNotification_ok]
    refine List.mem_flatten.mpr ⟨_, List.mem_map.mpr ⟨e, he, rfl⟩, ?_⟩
    exact List.mem_map.mpr ⟨s, hs, rfl⟩

/-- A transport assignment for the C5 witness: the send to `subB`
rejects with a transient failure, the others succeed. -/
def sendW : Subscription → Option SendFailure :=
  fun s => if s = subB then some SendFailure.transient else none

/-- Witness for C5: with three subscriptions of which the second fails
transiently, the other two are still issued and delivered, and the
failing one settles as a logged error. -/
theorem c5_witness :
    (subA, catchSend sendW subA) ∈
      sendNotificationToUser (.found (.arr [subA, subB, subC])) sendW ∧
    (subC, catchSend sendW subC) ∈
      sendNotificationToUser (.found (.arr [subA, subB, subC])) sendW ∧
    catchSend sendW subA = .delivered ∧
    catchSend sendW subB = .loggedError ∧
    catchSend sendW subC = .delivered := by
  refine ⟨?_, ?_, by decide, by decide, by decide⟩
  · exact c5_failure_isolation.2.1 (.arr [subA, subB, subC]) sendW subA (by decide)
  · exact c5_failure_isolation.2.1 (.arr [subA, subB, subC]) sendW subC (by decide)

/-! ## Claim C3 -/

/-- **C3.** An employee whose `role_type` is `"Manager"` is never a
recipient of `broadcastNotification("Manager", ...)` — no transport send
is issued for them — and is never fetched, evaluated, or notified by the
inactivity scan. -/
theorem c3_manager_never_targeted :
    ∀ (pop : List Emp) (e : Emp), e.role_type = "Manager" →
      e ∉ broadcastRecipients "Manager" pop ∧
      (∀ (send : Emp → Subscription → Option SendFailure)
          (s : Subscription) (o : SendOutcome),
          (e, s, o) ∉ broadcastNotification "Manager" (.ok pop) send) ∧
      e ∉ scanFetch pop ∧
      (∀ cutoff : Int, e ∉ scanSent (inactivityCheck pop cutoff)) := by
  intro pop e hmgr
  have hfetch : e ∉ scanFetch pop := by
    intro hmem
    have h2 := (List.mem_filter.mp hmem).2
    simp [hmgr] at h2
  have hbr : e ∉ broadcastRecipients "Manager" pop := by
    simpa [broadcastRecipients, scanFetch] using hfetch
  refine ⟨hbr, ?_, hfetch, ?_⟩
  · intro send s o hmem
    rw [broadcastNotification_ok] at hmem
    obtain ⟨grp, hgrp, hin⟩ := List.mem_flatten.mp hmem
    obtain ⟨e1, he1, rfl⟩ := List.mem_map.mp hgrp
    obtain ⟨s1, hs1, heq⟩ := List.mem_map.mp hin
    have he1e : e1 = e := congrArg Prod.fst heq
    subst he1e
    exact hbr he1
  · intro cutoff hmem
    have hm : e ∈ (scanFetch pop).filter (inactivityQualifies cutoff) := by
      simpa [inactivityCheck, schedulerRun, scanSent] using hmem
    exact hfetch (List.mem_filter.mp hm).1

/-- Witness for C3: the concrete Manager row is excluded from both the
broadcast recipient set and the scan fetch. -/
theorem c3_witness :
    mgrRow ∉ broadcastRecipients "Manager" [mgrRow, icRow] ∧
    mgrRow ∉ scanFetch [mgrRow, icRow] ∧
    (mgrRow, subA, SendOutcome.delivered) ∉
      broadcastNotification "Manager" (.ok [mgrRow, icRow]) (fun _ _ => none) :=
  ⟨(c3_manager_never_targeted [mgrRow, icRow] mgrRow rfl).1,
   (c3_manager_never_targeted [mgrRow, icRow] mgrRow rfl).2.2.1,
   (c3_manager_never_targeted [mgrRow, icRow] mgrRow rfl).2.1 (fun _ _ => none)
     subA SendOutcome.delivered⟩

/-! ## Claim C4 -/

/-- **C4 counterexample.** With `excluded_role = "IC"`, the claim says
an employee whose `role_type` equals `"IC"` receives nothing; but the
code only tests the argument for truthiness and always excludes
`"Manager"`, so the `"IC"` employee is resolved as a recipient and is
issued a send. -/
theorem c4_counterexample :
    icRow.role_type = "IC" ∧
    icRow ∈ broadcastRecipients "IC" [icRow] ∧
    (icRow, subA, SendOutcome.delivered) ∈
      broadcastNotification "IC" (.ok [icRow]) (fun _ _ => none) := by
  refine ⟨rfl, ?_, ?_⟩ <;> decide

/-- **C4 (amended).** `broadcastNotification(excluded_role, P)` ignores
the value of `excluded_role` beyond its truthiness: for every truthy
(non-empty) role argument the recipient set is exactly the employees
whose `role_type` is not `"Manager"`; for a falsy (empty) role argument
the query is left unfiltered and every employee is a recipient. -/
theorem c4_broadcast_excludes_manager_only :
    (∀ (roleType : String) (pop : List Emp), roleType ≠ "" →
        broadcastRecipients roleType pop =
          pop.filter (fun e => e.role_type != "Manager")) ∧
    (∀ pop : List Emp, broadcastRecipients "" pop = pop) ∧
    (∀ (roleType : String) (pop : List Emp) (e : Emp), roleType ≠ "" →
        (e ∈ broadcastRecipients roleType pop ↔
          e ∈ pop ∧ e.role_type ≠ "Manager")) := by
  have hmain : ∀ (roleType : String) (pop : List Emp), roleType ≠ "" →
      broadcastRecipients roleType pop =
        pop.filter (fun e => e.role_type != "Manager") := by
    intro roleType pop h
    have ht : (roleType != "") = true := bne_iff_ne.mpr h
    simp [broadcastRecipients, ht]
  refine ⟨hmain, ?_, ?_⟩
  · intro pop
    simp [broadcastRecipients]
  · intro roleType pop e h
    rw [hmain roleType pop h, List.mem_filter]
    simp [bne_iff_ne]

/-- Witness for C4 (amended): with role argument `"IC"` the recipient
set over a two-row population is exactly the non-Manager row, and
membership matches the not-Manager test. -/
theorem c4_witness :
    broadcastRecipients "IC" [mgrRow, icRow] = [icRow] ∧
    (icRow ∈ broadcastRecipients "IC" [mgrRow, icRow] ↔
      icRow ∈ [mgrRow, icRow] ∧ icRow.role_type ≠ "Manager") := by
  constructor
  · rw [c4_broadcast_excludes_manager_only.1 "IC" [mgrRow, icRow] (by decide)]
    decide
  · exact c4_broadcast_excludes_manager_only.2.2 "IC" [mgrRow, icRow] icRow
      (by decide)

/-! ## Auth controller (loginUser) and employee controller
(updateEmployee), src/generate_keys.js -/

/-- The `5.5 * 60 * 60 * 1000` ms IST offset added to the wall-clock
instant before `updated_at` is serialized (generate_keys.js
lines 237-240). -/
def istOffset : Int := 19800000

/-- An employee row as `loginUser` reads it. -/
structure AuthUser where
  empid : String
  email : String
  password : String
deriving DecidableEq

/-- Result of the login handler: 400 when a field is falsy, 401 on no
matching row or password mismatch, otherwise 200 together with the
`last_login` instant written back to the row. -/
inductive LoginResult where
  | badRequest
  | invalid
  | success (empid : String) (lastLoginWrite : Int)
deriving DecidableEq

/-- `loginUser` (generate_keys.js lines 446-495): reject falsy fields,
fetch rows by email, take the first, compare the password; on success
send the login notification and write
`last_login = new Date().toISOString()` for the user. -/
def loginUser (users : List AuthUser) (email password : String)
    (nowMs : Int) : LoginResult :=
  if email == "" || password == "" then .badRequest
  else
    match users.filter (fun u => u.email == email) with
    | [] => .invalid
    | u :: _ =>
      if u.password == password then .success u.empid nowMs
      else .invalid

/-- The existing employee row fields `updateEmployee` consults, with
`""` standing for a null/absent stored value (falsy in the JS
checks). -/
structure EmpDetails where
  name : String
  availability : String
  hours_available : String
  from_date : String
  to_date : String
  stars : Int
deriving DecidableEq

/-- The request body of `updateEmployee`, restricted to the fields the
claims touch: one representative profile field (`name`), the
availability cluster of detail scalars, and `stars`; `none` means the
key is absent (or explicitly `undefined`), which the handler skips. -/
structure UpdateBody where
  name : Option String
  availability : Option String
  hours_available : Option String
  from_date : Option String
  to_date : Option String
  stars : Option Int
deriving DecidableEq

/-- The field assignments of the DB update performed by the general
path of `updateEmployee`.  `hours_available`/`from_date`/`to_date` are
`Option (Option String)`: absent from the update, set to a string, or
explicitly set to null by the auto-cleanup branch.  `updated_at` is the
instant denoted by the ISO string stored (generate_keys.js line 240). -/
structure UpdatePayload where
  name : Option String
  availability : Option String
  hours_available : Option (Option String)
  from_date : Option (Option String)
  to_date : Option (Option String)
  updated_at : Int
deriving DecidableEq

/-- Result of the `updateEmployee` handler: 404, the direct-star early
return (generate_keys.js lines 142-155, a DB update of `{ stars }`
alone), the 400 for `"Partially Available"` without the required
values, or the general update with its payload. -/
inductive UpdateOutcome where
  | notFound
  | starsDirect (stars : Int)
  | invalidAvailability
  | updated (p : UpdatePayload)
deriving DecidableEq

/-- JS string truthiness: non-empty. -/
def truthyS (s : String) : Bool := s != ""

/-- The availability validation failure (generate_keys.js
lines 210-233): some availability-cluster key is being updated, the
effective availability is `"Partially Available"`, and at least one of
hours/from/to is falsy both in the update and in the existing row. -/
def availabilityInvalid (ex : EmpDetails) (body : UpdateBody) : Bool :=
  (body.availability.isSome || body.hours_available.isSome ||
    body.from_date.isSome || body.to_date.isSome) &&
  (body.availability.getD ex.availability == "Partially Available") &&
  (!truthyS (body.hours_available.getD ex.hours_available) ||
    !truthyS (body.from_date.getD ex.from_date) ||
    !truthyS (body.to_date.getD ex.to_date))

/-- The auto-cleanup branch (generate_keys.js lines 220-226): an
availability-cluster update whose effective availability is not
`"Partially Available"` while some of hours/from/to is truthy — the
three fields are then overwritten with null. -/
def availabilityCleanup (ex : EmpDetails) (body : UpdateBody) : Bool :=
  (body.availability.isSome || body.hours_available.isSome ||
    body.from_date.isSome || body.to_date.isSome) &&
  (body.availability.getD ex.availability != "Partially Available") &&
  (truthyS (body.hours_available.getD ex.hours_available) ||
    truthyS (body.from_date.getD ex.from_date) ||
    truthyS (body.to_date.getD ex.to_date))

/-- The update payload built from the present body fields, with
`updated_at` set unconditionally to the IST-shifted instant
(generate_keys.js lines 160-201 and 237-240). -/
def basePayload (body : UpdateBody) (nowMs : Int) : UpdatePayload :=
  { name := body.name
    availability := body.availability
    hours_available := body.hours_available.map some
    from_date := body.from_date.map some
    to_date := body.to_date.map some
    updated_at := nowMs + istOffset }

/-- `basePayload` after the auto-cleanup overwrote the three
availability scalars with null. -/
def clearedPayload (body : UpdateBody) (nowMs : Int) : UpdatePayload :=
  { basePayload body nowMs with
    hours_available := some none
    from_date := some none
    to_date := some none }

/-- `updateEmployee` (generate_keys.js lines 121-264): 404 when the row
is missing; a body carrying `stars` takes the direct-star early return
(lines 142-155) which updates `{ stars }` only; otherwise the payload is
assembled from the present fields, the availability validation may
answer 400, the cleanup branch may null the three scalars, and
`updated_at` is set to `new Date(now + istOffset).toISOString()` before
the row update. -/
def updateEmployee (existing : Option EmpDetails) (body : UpdateBody)
    (nowMs : Int) : UpdateOutcome :=
  match existing with
  | none => .notFound
  | some ex =>
    match body.stars with
    | some v => .starsDirect v
    | none =>
      match availabilityInvalid ex body with
      | true => .invalidAvailability
      | false =>
        match availabilityCleanup ex body with
        | true => .updated (clearedPayload body nowMs)
        | false => .updated (basePayload body nowMs)

theorem updateEmployee_updated_at (ex : EmpDetails) (body : UpdateBody)
    (nowMs : Int) (p : UpdatePayload)
    (h : updateEmployee (some ex) body nowMs = .updated p) :
    p.updated_at = nowMs + istOffset := by
  unfold updateEmployee at h
  cases hst : body.stars with
  | some v =>
    simp only [hst] at h
    exact absurd h (by simp)
  | none =>
    simp only [hst] at h
    cases h1 : availabilityInvalid ex body with
    | true =>
      simp only [h1] at h
      exact absurd h (by simp)
    | false =>
      simp only [h1] at h
      cases h2 : availabilityCleanup ex body with
      | true =>
        simp only [h2] at h
        injection h with h3
        rw [← h3]
        rfl
      | false =>
        simp only [h2] at h
        injection h with h3
        rw [← h3]
        rfl

/-! ## Claim C9 -/

/-- Whether the handler outcome includes an `updated_at` write. -/
def writesUpdatedAt : UpdateOutcome → Bool
  | .updated _ => true
  | _ => false

/-- Whether the handler responded with success (a DB update was
performed). -/
def updateSucceeded : UpdateOutcome → Bool
  | .starsDirect _ => true
  | .updated _ => true
  | _ => false

/-- An existing employee row for the update witnesses. -/
def exRow : EmpDetails :=
  { name := "A", availability := "Occupied", hours_available := "",
    from_date := "", to_date := "", stars := 0 }

/-- A stars-only request body. -/
def starsBody : UpdateBody :=
  { name := none, availability := none, hours_available := none,
    from_date := none, to_date := none, stars := some 4 }

/-- A name-only request body (general update path). -/
def nameBody : UpdateBody :=
  { name := some "B", availability := none, hours_available := none,
    from_date := none, to_date := none, stars := none }

/-- A user row for the login witness. -/
def uA : AuthUser := { empid := "E1", email := "a@x", password := "pw" }

/-- **C9 counterexample.** A stars-only update against an existing
employee succeeds via the direct-star early return, whose DB update is
`{ stars: body.stars }` alone — no `updated_at` is written, contrary to
the claim that every successful detail/profile mutation (including a
stars-only update) refreshes `updated_at`. -/
theorem c9_counterexample :
    updateEmployee (some exRow) starsBody 1700000000000 = .starsDirect 4 ∧
    updateSucceeded (updateEmployee (some exRow) starsBody 1700000000000) = true ∧
    writesUpdatedAt (updateEmployee (some exRow) starsBody 1700000000000) = false := by
  refine ⟨?_, ?_, ?_⟩ <;> decide

/-- **C9 (amended).** Every successful authentication writes
`last_login` equal to the authentication instant; every successful
update through the general path — any body without a `stars` field that
reaches the row update — writes `updated_at`; but a body carrying
`stars` takes the direct-star early return, which performs a successful
update of `stars` only, with no `updated_at` write. -/
theorem c9_timestamps_refreshed :
    (∀ (users : List AuthUser) (email pw : String) (nowMs : Int)
        (eid : String) (t : Int),
        loginUser users email pw nowMs = .success eid t → t = nowMs) ∧
    (∀ (ex : EmpDetails) (body : UpdateBody) (nowMs : Int) (p : UpdatePayload),
        updateEmployee (some ex) body nowMs = .updated p →
        p.updated_at = nowMs + istOffset) ∧
    (∀ (ex : EmpDetails) (body : UpdateBody) (nowMs : Int) (v : Int),
        body.stars = some v →
        updateEmployee (some ex) body nowMs = .starsDirect v ∧
        writesUpdatedAt (updateEmployee (some ex) body nowMs) = false) := by
  refine ⟨?_, updateEmployee_updated_at, ?_⟩
  · intro users email pw nowMs eid t h
    unfold loginUser at h
    split at h
    · exact absurd h (by simp)
    · split at h
      · exact absurd h (by simp)
      · split at h
        · injection h with h1 h2
          exact h2.symm
        · exact absurd h (by simp)
  · intro ex body nowMs v hv
    have hs : updateEmployee (some ex) body nowMs = .starsDirect v := by
      unfold updateEmployee
      simp only [hv]
    exact ⟨hs, by rw [hs]; rfl⟩

/-- Witness for C9 (amended): a concrete successful login writes
`last_login = 555`; a concrete name-only update writes
`updated_at = 777 + istOffset`; a concrete stars body takes the
direct-star path without an `updated_at` write. -/
theorem c9_witness :
    (555 : Int) = 555 ∧
    (basePayload nameBody 777).updated_at = 777 + istOffset ∧
    (updateEmployee (some exRow) starsBody 777 = .starsDirect 4 ∧
      writesUpdatedAt (updateEmployee (some exRow) starsBody 777) = false) :=
  ⟨c9_timestamps_refreshed.1 [uA] "a@x" "pw" 555 "E1" 555 (by decide),
   c9_timestamps_refreshed.2.1 exRow nameBody 777 (basePayload nameBody 777)
     (by decide),
   c9_timestamps_refreshed.2.2 exRow starsBody 777 4 rfl⟩

/-! ## Claim C10 -/

/-- **C10.** On the general (non-stars) update path the stored
`updated_at` denotes the instant `nowMs + istOffset`, i.e. exactly
19,800,000 ms (5.5 hours) after the true mutation instant — a future
instant — and the inactivity scan's comparison of that stored value
against a cutoff is accordingly skewed: the stored `updated_at` is below
the cutoff iff the true mutation instant is below `cutoff - 5.5h`. -/
theorem c10_ist_offset_skew :
    istOffset = 19800000 ∧
    (∀ (ex : EmpDetails) (body : UpdateBody) (nowMs : Int) (p : UpdatePayload),
        updateEmployee (some ex) body nowMs = .updated p →
        p.updated_at = nowMs + istOffset ∧
        nowMs < p.updated_at ∧
        (∀ (e : Emp) (cutoff : Int), e.updated_at = some p.updated_at →
          (lastUpdateMs e < cutoff ↔ nowMs < cutoff - istOffset))) := by
  refine ⟨rfl, ?_⟩
  intro ex body nowMs p h
  have hup : p.updated_at = nowMs + istOffset := updateEmployee_updated_at ex body nowMs p h
  refine ⟨hup, ?_, ?_⟩
  · rw [hup]
    simp [istOffset]
  · intro e cutoff he
    rw [lastUpdateMs, he, Option.getD_some, hup]
    unfold istOffset
    omega

/-- An employee row whose stored `updated_at` is the IST-shifted value
written by the concrete C10 update (`1000 + istOffset`). -/
def skewRow : Emp :=
  { empid := "E2", role_type := "IC", last_login := none,
    updated_at := some 19801000, stored := .missing }

/-- Witness for C10: the concrete name-only update at instant 1000
stores `updated_at = 1000 + istOffset`, a strictly later instant, and an
employee carrying that stored value is compared against cutoff
30,000,000 exactly as predicted by the 5.5-hour skew. -/
theorem c10_witness :
    (basePayload nameBody 1000).updated_at = 1000 + istOffset ∧
    (1000 : Int) < (basePayload nameBody 1000).updated_at ∧
    (lastUpdateMs skewRow < 30000000 ↔ (1000 : Int) < 30000000 - istOffset) :=
  ⟨(c10_ist_offset_skew.2 exRow nameBody 1000 (basePayload nameBody 1000)
      (by decide)).1,
   (c10_ist_offset_skew.2 exRow nameBody 1000 (basePayload nameBody 1000)
      (by decide)).2.1,
   (c10_ist_offset_skew.2 exRow nameBody 1000 (basePayload nameBody 1000)
      (by decide)).2.2 skewRow 30000000 (by decide)⟩
